import Mathlib

/-!
Verification of the Wernicke websocket transcription server core
(session buffer, audio validator, GPU pipeline, websocket session loop).

The definitions below are a shallow embedding of the Python sources:

* `utils/audio_validator.py`      → `validate_audio_chunk`
* `services/transcription_session.py` → `TranscriptionSession` and its operations
* `services/gpu_pipeline.py`      → `transcribe_audio`,
  `processPartialAndGetWhisperResult`, `apply_alignment`, `apply_diarization`,
  `apply_llm_correction`, `process_final`, `handle_gpu_error`
* `routers/websocket_transcribe.py` → `handleMessage`, `runLoop`,
  `finalTaskFrame`

Modelling conventions:

* Python floats (wall-clock times, durations, latencies, segment timestamps)
  are modelled as rationals (`ℚ`); all comparisons in the sources are on
  values where this is faithful.
* Raw audio byte strings are modelled as `List Nat` (one entry per byte);
  every check in the sources only inspects the byte length.
* The opaque GPU capabilities (Silero-VAD, Whisper) are modelled as oracle
  parameters: the VAD verdict is a `Bool` (the source's
  `_detect_speech_segments` returns a boolean and fails open to `true`), and
  the Whisper call outcome is a `RecognizerOutcome` (success with decoded
  text, a CUDA out-of-memory exception, or another exception).
* Side effects that the claims mention are made explicit: whether
  `torch.cuda.empty_cache()` ran is a returned `Bool`, and the number of
  Whisper invocations performed is a returned `Nat`.
* Python dict payloads are modelled as structures/inductives; a dict that
  may or may not carry an `error` key is an inductive with an `ok` and an
  `err` constructor.
-/

/-! ## Data model: segments, recognizer output, result payloads -/

/-- One transcribed span, modelling the segment dicts built in
`gpu_pipeline.py`.  The Whisper stage produces `start`/`end`/`text`; the
diarization stub later adds a `speaker` key and the LLM-correction stub adds
a `corrected` key, so those two are `Option`s that start out `none`.
The Python `end` key is called `end_` because `end` is a Lean keyword. -/
structure Segment where
  start : ℚ
  end_ : ℚ
  text : String
  speaker : Option String
  corrected : Option Bool
  deriving Repr, DecidableEq

/-- Error payload dict, as built by `handle_gpu_error` and the generic
exception branches of `transcribe_audio` (`{'error': True, ...}`).
`error_type` is `none` when the dict carries no `error_type` key. -/
structure ErrorInfo where
  error_type : Option String
  message : String
  deriving Repr, DecidableEq

/-- Return value of `transcribe_audio`: either a success dict
`{'text', 'segments'}` (with `vad_skipped = true` exactly when the dict also
carries the `'vad_skipped': True` key), or an error dict. -/
inductive TranscribeResult where
  | ok (text : String) (segments : List Segment) (vad_skipped : Bool)
  | err (e : ErrorInfo)
  deriving Repr, DecidableEq

/-- Outcome of the opaque Whisper `generate`/`batch_decode` call on one
buffer: decoded text, a `torch.cuda.OutOfMemoryError`, or another
exception. -/
inductive RecognizerOutcome where
  | success (text : String)
  | oom (message : String)
  | failure (message : String)
  deriving Repr, DecidableEq

/-- The result dict of the fast first phase
(`{'type': 'partial', 'buffer_id', 'text', 'segments', 'timestamp_range',
'latency_ms'}`). -/
structure PartialResult where
  buffer_id : List Char
  text : String
  segments : List Segment
  timestamp_range : ℚ × ℚ
  latency_ms : ℚ
  deriving Repr, DecidableEq

/-- The result dict of the enrichment phase (`{'type': 'final', ...}`). -/
structure FinalResult where
  buffer_id : List Char
  text : String
  segments : List Segment
  timestamp_range : ℚ × ℚ
  latency_ms : ℚ
  deriving Repr, DecidableEq

/-- What `websocket_endpoint` passes to `send_json` in place of a first-phase
result: either the result dict or the error dict that
`processPartialAndGetWhisperResult` returned in its place. -/
inductive PartialSend where
  | ok (r : PartialResult)
  | errorDict (e : ErrorInfo)
  deriving Repr, DecidableEq

/-- What the background task passes to `send_json`: the final-result dict or
the error dict that `process_final` forwarded. -/
inductive FinalSend where
  | ok (r : FinalResult)
  | errorDict (e : ErrorInfo)
  deriving Repr, DecidableEq

/-! ## Audio validator (`utils/audio_validator.py`) -/

/-- Maximum payload: 30 s × 16000 Hz × 1 channel × 4 bytes. -/
def MAX_PAYLOAD_BYTES : Nat := 30 * 16000 * 1 * 4

/-- Frame size for mono float32: 1 channel × 4 bytes per sample. -/
def EXPECTED_FRAME_SIZE : Nat := 1 * 4

/-- Structured reason of a validation failure, one constructor per failing
check of `validate_audio_chunk`; each carries the offending byte length that
the Python message interpolates.  The error dict sent on the wire is
`{"type": "error", "code": "INVALID_FORMAT", "message": ...}` for every
constructor (see `OutFrame.frameCode`). -/
inductive ValidationError where
  | emptyPayload
  | exceedsSizeLimit (len : Nat)
  | notFrameAligned (len : Nat)
  | tooSmall (len : Nat)
  deriving Repr, DecidableEq

/-- Embedding of `validate_audio_chunk`.  The checks run in source order:
empty payload, size limit, frame alignment, minimum size (1 ms = 64 bytes,
`int(0.001 * 16000 * 1 * 4)`).  Returns `(is_valid, error)`. -/
def validate_audio_chunk (audio_data : List Nat) : Bool × Option ValidationError :=
  if audio_data.length = 0 then
    (false, some .emptyPayload)
  else if audio_data.length > MAX_PAYLOAD_BYTES then
    (false, some (.exceedsSizeLimit audio_data.length))
  else if ¬ audio_data.length % EXPECTED_FRAME_SIZE = 0 then
    (false, some (.notFrameAligned audio_data.length))
  else if audio_data.length < 64 then
    (false, some (.tooSmall audio_data.length))
  else
    (true, none)

/-! ## Session buffer (`services/transcription_session.py`) -/

/-- Wall-clock date/time as rendered by `datetime.now().strftime`, kept as
the two character strings `%Y%m%d` (8 characters) and `%H%M%S`
(6 characters); the fixed widths are invariants of those format strings. -/
structure DateTime where
  date : List Char
  time : List Char
  date_len : date.length = 8
  time_len : time.length = 6

/-- Decimal digit characters of a natural number, most significant first,
modelling Python `"%d"` rendering. -/
def decChars (n : Nat) : List Char :=
  if n = 0 then ['0'] else ((Nat.digits 10 n).reverse.map Nat.digitChar)

/-- Zero-pad a counter to at least three characters, modelling Python
`f"{counter:03d}"`. -/
def pad3 (n : Nat) : List Char :=
  List.replicate (3 - (decChars n).length) '0' ++ decChars n

/-- Embedding of `TranscriptionSession._generate_buffer_id`:
`f"buff_{date_str}_{time_str}_{counter:03d}"`. -/
def generate_buffer_id (now : DateTime) (counter : Nat) : List Char :=
  ['b', 'u', 'f', 'f', '_'] ++ now.date ++ ['_'] ++ now.time ++ ['_'] ++ pad3 counter

/-- Session constants from `TranscriptionSession`:
`BYTES_PER_SECOND = 16000 * 1 * 4`. -/
def BYTES_PER_SECOND : Nat := 16000 * 1 * 4

/-- `MAX_BUFFER_SIZE = BYTES_PER_SECOND * 30` = 1,920,000 bytes. -/
def MAX_BUFFER_SIZE : Nat := BYTES_PER_SECOND * 30

/-- `MIN_BUFFER_SIZE = int(BYTES_PER_SECOND * 5.0)` = 320,000 bytes. -/
def MIN_BUFFER_SIZE : Nat := BYTES_PER_SECOND * 5

/-- `SILENCE_THRESHOLD = 2.0` seconds. -/
def SILENCE_THRESHOLD : ℚ := 2

/-- Mutable state of one `TranscriptionSession`. -/
structure TranscriptionSession where
  buffer : List Nat
  buffer_counter : Nat
  buffer_id : List Char
  buffer_start_time : Option ℚ
  silence_duration : ℚ
  deriving DecidableEq

/-- Embedding of `TranscriptionSession.__init__` (counter starts at 1 and
the first buffer_id is generated immediately). -/
def TranscriptionSession.init (now : DateTime) : TranscriptionSession :=
  { buffer := []
    buffer_counter := 1
    buffer_id := generate_buffer_id now 1
    buffer_start_time := none
    silence_duration := 0 }

/-- Embedding of `add_audio_chunk`: record `buffer_start_time` (wall clock
`now`) if the buffer is empty, then extend the buffer. -/
def TranscriptionSession.add_audio_chunk (s : TranscriptionSession)
    (chunk : List Nat) (now : ℚ) : TranscriptionSession :=
  let s1 := if s.buffer.length = 0 then { s with buffer_start_time := some now } else s
  { s1 with buffer := s1.buffer ++ chunk }

/-- Embedding of `track_silence`. -/
def TranscriptionSession.track_silence (s : TranscriptionSession) (duration : ℚ) :
    TranscriptionSession :=
  { s with silence_duration := s.silence_duration + duration }

/-- Embedding of `reset_silence`. -/
def TranscriptionSession.reset_silence (s : TranscriptionSession) : TranscriptionSession :=
  { s with silence_duration := 0 }

/-- Embedding of `get_buffer_start_time`. -/
def TranscriptionSession.get_buffer_start_time (s : TranscriptionSession) : Option ℚ :=
  s.buffer_start_time

/-- Embedding of `should_flush`, branch for branch: empty buffer → false;
buffer at the hard ceiling → true; silence over threshold → true only if the
buffer has reached the minimum size; otherwise false. -/
def TranscriptionSession.should_flush (s : TranscriptionSession) : Bool :=
  if s.buffer.length = 0 then
    false
  else if s.buffer.length ≥ MAX_BUFFER_SIZE then
    true
  else if s.silence_duration ≥ SILENCE_THRESHOLD then
    if s.buffer.length ≥ MIN_BUFFER_SIZE then true else false
  else
    false

/-- Embedding of `flush`: return `(bytes(self._buffer), self._buffer_id)`
— a pair, nothing more — then clear the buffer, clear
`buffer_start_time`, reset the silence counter, increment the counter and
regenerate `buffer_id` (with the wall clock `now`). -/
def TranscriptionSession.flush (s : TranscriptionSession) (now : DateTime) :
    (List Nat × List Char) × TranscriptionSession :=
  ((s.buffer, s.buffer_id),
   { buffer := []
     buffer_counter := s.buffer_counter + 1
     buffer_id := generate_buffer_id now (s.buffer_counter + 1)
     buffer_start_time := none
     silence_duration := 0 })

/-! ## GPU pipeline (`services/gpu_pipeline.py`) -/

/-- The exception caught by the pipeline's error handler: a
`torch.cuda.OutOfMemoryError` or any other exception. -/
inductive GpuException where
  | outOfMemory (message : String)
  | other (message : String)
  deriving Repr, DecidableEq

/-- Embedding of `handle_gpu_error`.  The second component records whether
`torch.cuda.empty_cache()` ran (the source clears the GPU cache exactly in
the out-of-memory branch).  The OOM branch returns the literal
`{'error': True, 'error_type': 'GPU_OOM', 'message': 'GPU Out of Memory.
Buffer will be skipped.'}`. -/
def handle_gpu_error : GpuException → ErrorInfo × Bool
  | .outOfMemory _ =>
      ({ error_type := some "GPU_OOM"
         message := "GPU Out of Memory. Buffer will be skipped." }, true)
  | .other m =>
      ({ error_type := some "GPU_ERROR", message := m }, false)

/-- Embedding of `transcribe_audio`.  `audioBytes` is the byte length of the
flushed buffer (`numSamples = audioBytes / 4` models `np.frombuffer` on
float32).  `hasSpeech` is the verdict of `_detect_speech_segments` (the
Silero-VAD oracle, failing open to `true`), `rec` the Whisper-call oracle.
Returns `(result, cache_cleared, whisper_calls)` where `whisper_calls`
counts invocations of `whisper_model.generate` (1 whenever the VAD gate is
passed — an invocation that raises still happened — and 0 otherwise).
On no speech the source short-circuits with
`{'text': '', 'segments': [], 'vad_skipped': True}`;
on success it builds one segment spanning `[0, numSamples / 16000]` when
`text.strip()` is non-empty (modelled as: the text has a non-whitespace
character) and no segment otherwise;
on `torch.cuda.OutOfMemoryError` it returns `handle_gpu_error`'s dict;
on any other exception it returns `{'error': True, 'message': str(e)}`. -/
def transcribe_audio (audioBytes : Nat) (hasSpeech : Bool)
    (rec : RecognizerOutcome) : TranscribeResult × Bool × Nat :=
  let numSamples := audioBytes / 4
  if hasSpeech = false then
    (.ok "" [] true, false, 0)
  else
    match rec with
    | .success text =>
        let segments : List Segment :=
          if text.toList.all Char.isWhitespace then []
          else [{ start := 0
                  end_ := (numSamples : ℚ) / 16000
                  text := text
                  speaker := none
                  corrected := none }]
        (.ok text segments false, false, 1)
    | .oom m =>
        let h := handle_gpu_error (.outOfMemory m)
        (.err h.1, h.2, 1)
    | .failure m =>
        (.err { error_type := none, message := m }, false, 1)

/-- Python `min(seg['start'] for seg in segments)` /
`max(seg['end'] for seg in segments)` over a non-empty list, with the
source's `{'start': 0.0, 'end': 0.0}` fallback for an empty list. -/
def timestampRange (segments : List Segment) : ℚ × ℚ :=
  match segments with
  | [] => (0, 0)
  | s :: rest =>
      (rest.foldl (fun a seg => min a seg.start) s.start,
       rest.foldl (fun a seg => max a seg.end_) s.end_)

/-- Embedding of `process_partial_and_get_whisper_result`: run
`transcribe_audio` once; if its dict has an `error` key return
`(whisper_result, None)`; otherwise build the first-phase result dict
around the same text/segments and return `(result, whisper_result)`.
`latency_ms` models the wall-clock latency stamp.  The trailing
`Bool × Nat` forwards the cache/call instrumentation of
`transcribe_audio`. -/
def processPartialAndGetWhisperResult (audioBytes : Nat) (buffer_id : List Char)
    (hasSpeech : Bool) (rec : RecognizerOutcome) (latency_ms : ℚ) :
    PartialSend × Option TranscribeResult × Bool × Nat :=
  let t := transcribe_audio audioBytes hasSpeech rec
  match t.1 with
  | .err e => (.errorDict e, none, t.2)
  | .ok text segments _ =>
      (.ok { buffer_id := buffer_id
             text := text
             segments := segments
             timestamp_range := timestampRange segments
             latency_ms := latency_ms },
       some t.1, t.2)

/-- Embedding of `apply_alignment` (stub): returns the segments
unchanged. -/
def apply_alignment (segments : List Segment) (_audioBytes : Nat) : List Segment :=
  segments

/-- Embedding of `apply_diarization` (stub): sets
`seg['speaker'] = 'Speaker_00'` on every segment. -/
def apply_diarization (segments : List Segment) (_audioBytes : Nat) : List Segment :=
  segments.map fun seg => { seg with speaker := some "Speaker_00" }

/-- Embedding of `apply_llm_correction` (stub): returns the text unchanged
and a copy of every segment with `corrected = False` added.  (The source's
exception branches return the same value, so the function is this on every
path.) -/
def apply_llm_correction (text : String) (segments : List Segment) :
    String × List Segment :=
  (text, segments.map fun seg => { seg with corrected := some false })

/-- Embedding of `process_final`: if the reused whisper dict has an `error`
key, return it unchanged; otherwise run alignment → diarization → LLM
correction on it, recompute the timestamp range from the corrected segments
(same `min`/`max` fallback), and build the final dict with the same
`buffer_id` and a fresh `latency_ms`. -/
def process_final (whisper_result : TranscribeResult) (audioBytes : Nat)
    (buffer_id : List Char) (latency_ms : ℚ) : FinalSend :=
  match whisper_result with
  | .err e => .errorDict e
  | .ok text segments _ =>
      let s1 := apply_alignment segments audioBytes
      let s2 := apply_diarization s1 audioBytes
      let llm := apply_llm_correction text s2
      .ok { buffer_id := buffer_id
            text := llm.1
            segments := llm.2
            timestamp_range := timestampRange llm.2
            latency_ms := latency_ms }

/-! ## Websocket session loop (`routers/websocket_transcribe.py`) -/

/-- The `code` field of an error frame: the validator uses the string
`"INVALID_FORMAT"`, the endpoint's own branches use the numbers 400/500. -/
inductive ErrCode where
  | strCode (s : String)
  | numCode (n : Nat)
  deriving Repr, DecidableEq

/-- One JSON frame written to the websocket by the session loop or a
background final task. -/
inductive OutFrame where
  | connectionEstablished (session_id : String)
  | audioReceived (bytes_received : Nat)
  | validationError (e : ValidationError)
  | errorFrame (code : ErrCode) (message : String)
  | partialFrame (p : PartialSend)
  | finalFrame (f : FinalSend)
  deriving Repr, DecidableEq

/-- The `code` field carried by a frame, when it is an error frame.  A
validator rejection is sent verbatim, so its code is the validator's
`"INVALID_FORMAT"` string. -/
def OutFrame.frameCode : OutFrame → Option ErrCode
  | .validationError _ => some (.strCode "INVALID_FORMAT")
  | .errorFrame c _ => some c
  | _ => none

/-- Observable step of the session loop.  `sent` is a `send_json` call;
`invokedPipeline` instruments the `process_partial_and_get_whisper_result`
call (recording the `buffer_id` and `buffer_start_time` arguments, the byte
length of the flushed audio, the VAD verdict and the number of Whisper
calls made); `spawnedFinal` instruments `asyncio.create_task(
process_and_send_final_result(...))` with the values handed to the task. -/
inductive Event where
  | sent (f : OutFrame)
  | invokedPipeline (buffer_id : List Char) (buffer_start_time : Option ℚ)
      (audioLen : Nat) (hasSpeech : Bool) (whisperCalls : Nat)
  | spawnedFinal (whisper_result : TranscribeResult) (buffer_id : List Char)
      (audioLen : Nat) (buffer_start_time : Option ℚ)
  deriving DecidableEq

/-- One inbound websocket message, bundled with the environment a handling
of it may consume: the wall clock at append time, the wall clock at
buffer-id regeneration, and the VAD/Whisper/latency oracles used if this
message triggers a flush. -/
inductive InMessage where
  | binary (data : List Nat) (now : ℚ) (flushNow : DateTime)
      (hasSpeech : Bool) (rec : RecognizerOutcome) (latency_ms : ℚ)
  | text (s : String)
  | otherMsg
  deriving Inhabited

/-- Embedding of the body of the `while True` receive loop of
`websocket_endpoint`, for one message.  Returns the new session state, the
emitted events in order, and whether the loop keeps running (every branch
modelled here continues; the loop exits only on disconnect, which the model
renders as the end of the message list, or an unrecoverable send failure).

Binary branch: validate — on failure send the error dict and continue;
on success append the chunk, send the `audio_received` ack, and if
`should_flush()` then flush, read `get_buffer_start_time()` (after the
flush), call the pipeline, send the first-phase result, and spawn the
background final task only when the returned whisper result is not `None`.
Text branch: send the error frame `{"type": "error", "code": 400,
"message": "Invalid message format. Expected binary audio data."}`.
Unknown branch: send the analogous 400 frame. -/
def handleMessage (session : TranscriptionSession) (msg : InMessage) :
    TranscriptionSession × List Event × Bool :=
  match msg with
  | .text _ =>
      (session,
       [.sent (.errorFrame (.numCode 400)
          "Invalid message format. Expected binary audio data.")],
       true)
  | .otherMsg =>
      (session,
       [.sent (.errorFrame (.numCode 400)
          "Unknown message type. Expected binary audio data or text.")],
       true)
  | .binary data now flushNow hasSpeech rec latency_ms =>
      let v := validate_audio_chunk data
      if v.1 = false then
        (session, [.sent (match v.2 with
          | some e => .validationError e
          | none => .errorFrame (.numCode 400) "")], true)
      else
        let s1 := session.add_audio_chunk data now
        if s1.should_flush then
          let fl := s1.flush flushNow
          let buffer_audio := fl.1.1
          let buffer_id := fl.1.2
          let s2 := fl.2
          let buffer_start_time := s2.get_buffer_start_time
          let pr := processPartialAndGetWhisperResult buffer_audio.length
            buffer_id hasSpeech rec latency_ms
          let spawn : List Event :=
            match pr.2.1 with
            | some wr => [.spawnedFinal wr buffer_id buffer_audio.length buffer_start_time]
            | none => []
          (s2,
           [.sent (.audioReceived data.length),
            .invokedPipeline buffer_id buffer_start_time buffer_audio.length
              hasSpeech pr.2.2.2,
            .sent (.partialFrame pr.1)] ++ spawn,
           true)
        else
          (s1, [.sent (.audioReceived data.length)], true)

/-- The full receive loop: fold `handleMessage` over the inbound messages,
concatenating the emitted events (the message list ending models
disconnect). -/
def runLoop : TranscriptionSession → List InMessage → TranscriptionSession × List Event
  | s, [] => (s, [])
  | s, m :: rest =>
      let st := handleMessage s m
      if st.2.2 then
        let r := runLoop st.1 rest
        (r.1, st.2.1 ++ r.2)
      else
        (st.1, st.2.1)

/-- Embedding of `process_and_send_final_result`: the frame a spawned
background task sends — `process_final` on the whisper result it was handed,
with the same `buffer_id`. -/
def finalTaskFrame (whisper_result : TranscribeResult) (audioLen : Nat)
    (buffer_id : List Char) (latency_ms : ℚ) : OutFrame :=
  .finalFrame (process_final whisper_result audioLen buffer_id latency_ms)

/-! ## Shared concrete test fixtures -/

/-- A concrete wall-clock date/time (2025-01-05 12:00:00). -/
def dtA : DateTime :=
  { date := ['2', '0', '2', '5', '0', '1', '0', '5']
    time := ['1', '2', '0', '0', '0', '0']
    date_len := rfl
    time_len := rfl }

/-- A second concrete wall-clock date/time (2025-01-05 12:00:31). -/
def dtB : DateTime :=
  { date := ['2', '0', '2', '5', '0', '1', '0', '5']
    time := ['1', '2', '0', '0', '3', '1']
    date_len := rfl
    time_len := rfl }

/-- A 30-second chunk: exactly `MAX_BUFFER_SIZE` = 1,920,000 zero bytes. -/
def bigChunk : List Nat := List.replicate 1920000 0

/-! ## C4: flush determinism -/

/-- C4: `should_flush()` is true iff the buffer has reached the 1,920,000-byte
hard ceiling, or the silence counter is at least the 2.0 s threshold and the
buffer is at least the 320,000-byte minimum; in particular it is false on an
empty buffer and false whenever the buffer is below the minimum size, no
matter the silence. -/
theorem should_flush_iff (s : TranscriptionSession) :
    (s.should_flush = true ↔
      (s.buffer.length ≥ MAX_BUFFER_SIZE ∨
        (s.silence_duration ≥ SILENCE_THRESHOLD ∧ s.buffer.length ≥ MIN_BUFFER_SIZE))) ∧
    (s.buffer = [] → s.should_flush = false) ∧
    (s.buffer.length < MIN_BUFFER_SIZE → s.should_flush = false) := by
  unfold TranscriptionSession.should_flush
  refine ⟨?_, ?_, ?_⟩
  · split_ifs with h1 h2 h3 h4 <;>
      simp_all [MAX_BUFFER_SIZE, MIN_BUFFER_SIZE, BYTES_PER_SECOND]
  · intro hb
    simp [hb]
  · intro hlt
    split_ifs with h1 h2 h3 h4
    · rfl
    · exfalso
      simp only [MAX_BUFFER_SIZE, MIN_BUFFER_SIZE, BYTES_PER_SECOND] at hlt h2
      omega
    · exact absurd h4 (not_le.mpr hlt)
    · rfl
    · rfl

/-- Witness for C4 at concrete inputs: an empty buffer never flushes even
with 5 s of silence, and a 100-byte buffer with 5 s of silence does not
flush either. -/
theorem should_flush_iff_witness :
    TranscriptionSession.should_flush
      { buffer := [], buffer_counter := 1, buffer_id := []
        buffer_start_time := none, silence_duration := 5 } = false ∧
    TranscriptionSession.should_flush
      { buffer := List.replicate 100 0, buffer_counter := 1, buffer_id := []
        buffer_start_time := none, silence_duration := 5 } = false :=
  ⟨(should_flush_iff _).2.1 rfl,
   (should_flush_iff _).2.2 (by simp [MIN_BUFFER_SIZE, BYTES_PER_SECOND])⟩

/-! ## C5: validator acceptance and check order -/

/-- C5 counterexample: a 7-byte chunk is reported as *not frame aligned*,
not as *too small* — the alignment check runs before the minimum-size check
in the source, contrary to the claimed order. -/
theorem validate_order_counterexample :
    validate_audio_chunk [0, 0, 0, 0, 0, 0, 0] =
      (false, some (.notFrameAligned 7)) ∧
    some (ValidationError.notFrameAligned 7) ≠ some (ValidationError.tooSmall 7) := by
  constructor
  · decide
  · decide

/-- C5 (amended): `validate_audio_chunk` accepts iff the chunk is non-empty,
at most 1,920,000 bytes, 4-byte aligned and at least 64 bytes; it always
returns a structured pair (error value exactly on failure, never an
exception); and the checks run in the order empty → size limit → frame
alignment → minimum size, so the reported reason of a multiply-failing chunk
is the earliest in *that* order (alignment before minimum size). -/
theorem validate_audio_chunk_spec (data : List Nat) :
    ((validate_audio_chunk data).1 = true ↔
      (data.length ≠ 0 ∧ data.length ≤ MAX_PAYLOAD_BYTES ∧
        data.length % EXPECTED_FRAME_SIZE = 0 ∧ 64 ≤ data.length)) ∧
    ((validate_audio_chunk data).1 = true ↔ (validate_audio_chunk data).2 = none) ∧
    (data.length = 0 → (validate_audio_chunk data).2 = some .emptyPayload) ∧
    (data.length ≠ 0 → data.length > MAX_PAYLOAD_BYTES →
      (validate_audio_chunk data).2 = some (.exceedsSizeLimit data.length)) ∧
    (data.length ≠ 0 → data.length ≤ MAX_PAYLOAD_BYTES →
      data.length % EXPECTED_FRAME_SIZE ≠ 0 →
      (validate_audio_chunk data).2 = some (.notFrameAligned data.length)) ∧
    (data.length ≠ 0 → data.length ≤ MAX_PAYLOAD_BYTES →
      data.length % EXPECTED_FRAME_SIZE = 0 → data.length < 64 →
      (validate_audio_chunk data).2 = some (.tooSmall data.length)) := by
  unfold validate_audio_chunk
  refine ⟨?_, ?_, ?_, ?_, ?_, ?_⟩ <;>
    split_ifs <;> simp_all

/-- Witness for C5 at concrete inputs: the 7-byte chunk takes the
alignment branch, and a 64-byte aligned chunk is accepted. -/
theorem validate_audio_chunk_spec_witness :
    (validate_audio_chunk [0, 0, 0, 0, 0, 0, 0]).2 = some (.notFrameAligned 7) ∧
    (validate_audio_chunk (List.replicate 64 0)).1 = true :=
  ⟨(validate_audio_chunk_spec _).2.2.2.2.1 (by decide) (by decide) (by decide),
   (validate_audio_chunk_spec _).1.mpr
     (by simp [MAX_PAYLOAD_BYTES, EXPECTED_FRAME_SIZE])⟩

/-! ## C9: text frames -/

/-- C9 counterexample: a text frame is answered with the error frame
`{"type": "error", "code": 400, "message": "Invalid message format.
Expected binary audio data."}` — its code is the number 400, not the string
`INVALID_FORMAT`. -/
theorem text_frame_counterexample :
    handleMessage (TranscriptionSession.init dtA) (.text "ping") =
      (TranscriptionSession.init dtA,
       [.sent (.errorFrame (.numCode 400)
          "Invalid message format. Expected binary audio data.")],
       true) ∧
    OutFrame.frameCode
      (.errorFrame (.numCode 400)
        "Invalid message format. Expected binary audio data.")
      ≠ some (.strCode "INVALID_FORMAT") := by
  refine ⟨rfl, ?_⟩
  decide

/-- C9 (amended): on a text frame the session sends exactly one error frame,
whose code is the number 400 (not `INVALID_FORMAT`), with message
"Invalid message format. Expected binary audio data."; the session state is
unchanged and the main loop continues, so subsequent messages are processed
normally. -/
theorem text_frame_behavior (s : TranscriptionSession) (txt : String) :
    handleMessage s (.text txt) =
      (s,
       [.sent (.errorFrame (.numCode 400)
          "Invalid message format. Expected binary audio data.")],
       true) ∧
    (∀ rest, (runLoop s (.text txt :: rest)).2 =
      .sent (.errorFrame (.numCode 400)
          "Invalid message format. Expected binary audio data.")
        :: (runLoop s rest).2) := by
  refine ⟨rfl, fun rest => ?_⟩
  simp [runLoop, handleMessage]

/-! ## C10: the enrichment stages preserve text and timing -/

/-- Auxiliary: `timestampRange` only reads `start`/`end` fields, so a map
that preserves them preserves the range. -/
theorem timestampRange_map (segs : List Segment) (f : Segment → Segment)
    (hs : ∀ seg, (f seg).start = seg.start)
    (he : ∀ seg, (f seg).end_ = seg.end_) :
    timestampRange (segs.map f) = timestampRange segs := by
  cases segs with
  | nil => rfl
  | cons a l =>
    simp only [List.map_cons, timestampRange, List.foldl_map, hs, he]

/-- C10: on an error-free recognizer output, the final phase (alignment,
diarization, LLM correction — all stubs) preserves the text and every
segment's `start`/`end`/`text`, adds exactly `speaker = "Speaker_00"` and
`corrected = false` to each segment, and recomputes the same
`timestamp_range`; hence the final result's range equals the range of the
first-phase result built from the same recognizer output. -/
theorem process_final_preserves (text : String) (segs : List Segment)
    (v : Bool) (ab : Nat) (bid : List Char) (latF : ℚ) :
    (process_final (.ok text segs v) ab bid latF =
      .ok { buffer_id := bid
            text := text
            segments := segs.map fun seg =>
              { seg with speaker := some "Speaker_00", corrected := some false }
            timestamp_range := timestampRange segs
            latency_ms := latF }) ∧
    (∀ (hs : Bool) (rec : RecognizerOutcome) (latP : ℚ) (p : PartialResult),
      (processPartialAndGetWhisperResult ab bid hs rec latP).2.1 =
        some (.ok text segs v) →
      (processPartialAndGetWhisperResult ab bid hs rec latP).1 = .ok p →
      p.timestamp_range = timestampRange segs ∧ p.text = text ∧
        p.segments = segs) := by
  constructor
  · unfold process_final apply_alignment apply_diarization apply_llm_correction
    have hmap : ∀ (l : List Segment),
        (l.map fun seg => { seg with speaker := some "Speaker_00" }).map
            (fun seg => { seg with corrected := some false }) =
          l.map fun seg =>
            { seg with speaker := some "Speaker_00", corrected := some false } := by
      intro l
      induction l with
      | nil => rfl
      | cons a t ih => simp [ih]
    simp only [hmap]
    rw [timestampRange_map segs
      (fun seg => { seg with speaker := some "Speaker_00", corrected := some false })
      (fun seg => rfl) (fun seg => rfl)]
  · intro hs rec latP p h1 h2
    simp only [processPartialAndGetWhisperResult] at h1 h2
    rcases hr : (transcribe_audio ab hs rec).1 with _ | e
    · rw [hr] at h1 h2
      simp only [Option.some.injEq, TranscribeResult.ok.injEq] at h1
      simp only [PartialSend.ok.injEq] at h2
      obtain ⟨ht, hsegs, _⟩ := h1
      subst ht
      subst hsegs
      subst h2
      exact ⟨rfl, rfl, rfl⟩
    · rw [hr] at h1
      simp at h1

/-- Witness for C10 at a concrete input: one recognizer segment keeps its
timing and text and gains the default speaker and the uncorrected mark, and
the first-phase and final ranges agree. -/
theorem process_final_preserves_witness :
    process_final
        (.ok "hello"
          [{ start := 0, end_ := 30, text := "hello", speaker := none,
             corrected := none }] false) 1920000
        (generate_buffer_id dtA 1) 9 =
      .ok { buffer_id := generate_buffer_id dtA 1
            text := "hello"
            segments :=
              [{ start := 0, end_ := 30, text := "hello",
                 speaker := some "Speaker_00", corrected := some false }]
            timestamp_range := (0, 30)
            latency_ms := 9 } ∧
    ((0, (30 : ℚ)) =
      timestampRange
        [{ start := 0, end_ := 30, text := "hello", speaker := none,
           corrected := none }]) ∧
    ({ buffer_id := generate_buffer_id dtA 1
       text := "hello"
       segments := [{ start := 0, end_ := 30, text := "hello",
                      speaker := none, corrected := none }]
       timestamp_range := (0, 30)
       latency_ms := (9 : ℚ) } : PartialResult).timestamp_range =
      timestampRange
        [{ start := 0, end_ := 30, text := "hello", speaker := none,
           corrected := none }] := by
  refine ⟨(process_final_preserves "hello" _ false 1920000 _ 9).1, rfl, ?_⟩
  have hw : "hello".toList.all Char.isWhitespace = false := by decide
  exact ((process_final_preserves "hello"
      [{ start := 0, end_ := 30, text := "hello", speaker := none,
         corrected := none }] false 1920000 (generate_buffer_id dtA 1) 9).2
    true (.success "hello") 9 _
    (by simp [processPartialAndGetWhisperResult, transcribe_audio, hw]
        norm_num)
    (by simp [processPartialAndGetWhisperResult, transcribe_audio,
          timestampRange, hw]
        norm_num)).1

/-! ## Helper lemmas about the session loop -/

/-- The 30-second chunk is 1,920,000 bytes long. -/
theorem bigChunk_length : bigChunk.length = 1920000 := by
  rw [bigChunk]
  exact List.length_replicate 1920000 0

/-- A chunk that is non-empty, within the size limit, frame aligned and at
least 64 bytes passes validation. -/
theorem validate_ok (data : List Nat) (hlen0 : data.length ≠ 0)
    (hmax : data.length ≤ MAX_PAYLOAD_BYTES)
    (halign : data.length % EXPECTED_FRAME_SIZE = 0)
    (hmin : 64 ≤ data.length) :
    validate_audio_chunk data = (true, none) := by
  unfold validate_audio_chunk
  rw [if_neg hlen0, if_neg (not_lt.mpr hmax), if_neg (not_not_intro halign),
    if_neg (not_lt.mpr hmin)]

/-- Every branch of the message handler keeps the receive loop running. -/
theorem handleMessage_keepGoing (s : TranscriptionSession) (m : InMessage) :
    (handleMessage s m).2.2 = true := by
  cases m with
  | text t => rfl
  | otherMsg => rfl
  | binary data now fdt hsp rec lat =>
      unfold handleMessage
      dsimp only
      split
      · rfl
      · split <;> rfl

/-- One step of the receive loop: the events of the first message are
followed by the events of the rest of the trace (the loop always
continues). -/
theorem runLoop_cons (s : TranscriptionSession) (m : InMessage)
    (rest : List InMessage) :
    runLoop s (m :: rest) =
      ((runLoop (handleMessage s m).1 rest).1,
       (handleMessage s m).2.1 ++ (runLoop (handleMessage s m).1 rest).2) := by
  rw [runLoop]
  simp [handleMessage_keepGoing]

/-- Handling a valid chunk that fills an empty buffer to the hard ceiling:
the ack is sent, the pipeline is invoked with the *post-flush*
`buffer_start_time` (which is `none`), the first-phase result frame is
sent, and the background final task is spawned exactly when the pipeline
returned a whisper result. -/
theorem handleMessage_flush_block (s : TranscriptionSession) (data : List Nat)
    (now : ℚ) (fdt : DateTime) (hsp : Bool) (rec : RecognizerOutcome) (lat : ℚ)
    (hbuf : s.buffer = [])
    (hlen0 : data.length ≠ 0) (hmax : data.length ≤ MAX_PAYLOAD_BYTES)
    (halign : data.length % EXPECTED_FRAME_SIZE = 0) (hmin : 64 ≤ data.length)
    (hceil : MAX_BUFFER_SIZE ≤ data.length) :
    handleMessage s (.binary data now fdt hsp rec lat) =
      ({ buffer := []
         buffer_counter := s.buffer_counter + 1
         buffer_id := generate_buffer_id fdt (s.buffer_counter + 1)
         buffer_start_time := none
         silence_duration := 0 },
       [.sent (.audioReceived data.length),
        .invokedPipeline s.buffer_id none data.length hsp
          (processPartialAndGetWhisperResult data.length s.buffer_id hsp rec lat).2.2.2,
        .sent (.partialFrame
          (processPartialAndGetWhisperResult data.length s.buffer_id hsp rec lat).1)]
       ++ (match (processPartialAndGetWhisperResult data.length s.buffer_id hsp rec lat).2.1 with
           | some wr => [.spawnedFinal wr s.buffer_id data.length none]
           | none => []),
       true) := by
  have hv := validate_ok data hlen0 hmax halign hmin
  simp [handleMessage, TranscriptionSession.add_audio_chunk,
    TranscriptionSession.should_flush, TranscriptionSession.flush,
    TranscriptionSession.get_buffer_start_time, hv, hbuf, hlen0, hceil]

/-- Concrete trace: one 30-second chunk on which VAD detects no speech.
The pipeline is invoked with zero Whisper calls, an empty first-phase
result is sent, and a background final task is nonetheless spawned with the
non-null vad-skipped whisper dict. -/
theorem trace_vadSkip :
    (runLoop (TranscriptionSession.init dtA)
      [.binary bigChunk 100 dtB false (.success "hi") 7]).2 =
    [.sent (.audioReceived 1920000),
     .invokedPipeline (generate_buffer_id dtA 1) none 1920000 false 0,
     .sent (.partialFrame (.ok { buffer_id := generate_buffer_id dtA 1,
                                 text := "", segments := [],
                                 timestamp_range := (0, 0), latency_ms := 7 })),
     .spawnedFinal (.ok "" [] true) (generate_buffer_id dtA 1) 1920000 none] := by
  rw [runLoop_cons]
  rw [handleMessage_flush_block (TranscriptionSession.init dtA) bigChunk 100 dtB
    false (.success "hi") 7 rfl
    (by rw [bigChunk_length]; decide)
    (by rw [bigChunk_length]; decide)
    (by rw [bigChunk_length]; decide)
    (by rw [bigChunk_length]; decide)
    (by rw [bigChunk_length]; decide)]
  simp [runLoop, processPartialAndGetWhisperResult, transcribe_audio,
    timestampRange, bigChunk_length, TranscriptionSession.init]

/-- Whisper is invoked exactly when the VAD gate is passed: the call counter
returned by the first phase is 1 on speech and 0 otherwise. -/
theorem ppgwr_calls (ab : Nat) (bid : List Char) (hsp : Bool)
    (rec : RecognizerOutcome) (lat : ℚ) :
    (processPartialAndGetWhisperResult ab bid hsp rec lat).2.2.2 =
      if hsp then 1 else 0 := by
  cases hsp <;> cases rec <;>
    simp [processPartialAndGetWhisperResult, transcribe_audio, handle_gpu_error]

/-- When the first phase hands back a whisper result, that result is exactly
the one `transcribe_audio` produced, it is a success dict, and the
first-phase frame is the result dict built from the same text and
segments. -/
theorem ppgwr_shape (ab : Nat) (bid : List Char) (hsp : Bool)
    (rec : RecognizerOutcome) (lat : ℚ) (wr : TranscribeResult)
    (h : (processPartialAndGetWhisperResult ab bid hsp rec lat).2.1 = some wr) :
    wr = (transcribe_audio ab hsp rec).1 ∧
    ∃ text segs v, wr = .ok text segs v ∧
      (processPartialAndGetWhisperResult ab bid hsp rec lat).1 =
        .ok { buffer_id := bid, text := text, segments := segs,
              timestamp_range := timestampRange segs, latency_ms := lat } := by
  simp only [processPartialAndGetWhisperResult] at h ⊢
  rcases hr : (transcribe_audio ab hsp rec).1 with ⟨text, segs, v⟩ | e
  · rw [hr] at h
    simp at h
    subst h
    exact ⟨rfl, text, segs, v, rfl, rfl⟩
  · rw [hr] at h
    simp at h

/-! ## C1: VAD short-circuit -/

/-- C1 counterexample: for a concrete vad-skipped 30 s buffer, the whisper
result handed back by the first phase is the non-null dict
`{'text': '', 'segments': [], 'vad_skipped': True}` (not `None`), the
session loop therefore spawns the background final task, and that task sends
a final frame for the same `buffer_id` — contradicting the claim that the
recognizer output is null and no final frame is ever sent. -/
theorem vad_skip_counterexample :
    (processPartialAndGetWhisperResult 1920000 (generate_buffer_id dtA 1)
      false (.success "hi") 7).2.1 = some (.ok "" [] true) ∧
    (some (TranscribeResult.ok "" [] true) ≠ (none : Option TranscribeResult)) ∧
    (runLoop (TranscriptionSession.init dtA)
      [.binary bigChunk 100 dtB false (.success "hi") 7]).2 =
    [.sent (.audioReceived 1920000),
     .invokedPipeline (generate_buffer_id dtA 1) none 1920000 false 0,
     .sent (.partialFrame (.ok { buffer_id := generate_buffer_id dtA 1,
                                 text := "", segments := [],
                                 timestamp_range := (0, 0), latency_ms := 7 })),
     .spawnedFinal (.ok "" [] true) (generate_buffer_id dtA 1) 1920000 none] ∧
    finalTaskFrame (.ok "" [] true) 1920000 (generate_buffer_id dtA 1) 9 =
      .finalFrame (.ok { buffer_id := generate_buffer_id dtA 1, text := "",
                         segments := [], timestamp_range := (0, 0),
                         latency_ms := 9 }) := by
  refine ⟨?_, by simp, trace_vadSkip, ?_⟩
  · simp [processPartialAndGetWhisperResult, transcribe_audio]
  · simp [finalTaskFrame, process_final, apply_alignment, apply_diarization,
      apply_llm_correction, timestampRange]

/-- C1 (amended): on a buffer with no VAD-detected speech the first phase
returns a result with empty text, empty segments and range (0,0) (the
`vad_skipped` hint sits on the *whisper dict*, not on the result); the
whisper result handed back is the non-null vad-skipped dict, so the final
phase *does* run, and the background task sends a final frame with the same
`buffer_id`, empty text and empty segments. -/
theorem vad_skip_behavior (ab : Nat) (bid : List Char)
    (rec : RecognizerOutcome) (latP latF : ℚ) :
    processPartialAndGetWhisperResult ab bid false rec latP =
      (.ok { buffer_id := bid, text := "", segments := [],
             timestamp_range := (0, 0), latency_ms := latP },
       some (.ok "" [] true), false, 0) ∧
    finalTaskFrame (.ok "" [] true) ab bid latF =
      .finalFrame (.ok { buffer_id := bid, text := "", segments := [],
                         timestamp_range := (0, 0), latency_ms := latF }) := by
  constructor
  · simp [processPartialAndGetWhisperResult, transcribe_audio, timestampRange]
  · simp [finalTaskFrame, process_final, apply_alignment, apply_diarization,
      apply_llm_correction, timestampRange]

/-! ## C2: what flush returns and what the runtime passes on -/

/-- Any pipeline-invocation event recorded by the message handler carries
`buffer_start_time = none`, because the endpoint reads
`get_buffer_start_time()` only *after* `flush()` has cleared it. -/
theorem handleMessage_invoked_none (s : TranscriptionSession) (m : InMessage) :
    ∀ ev ∈ (handleMessage s m).2.1, ∀ bid bst al hsp c,
      ev = .invokedPipeline bid bst al hsp c → bst = none := by
  cases m with
  | text t =>
      intro ev hev bid bst al hsp c hev2
      simp [handleMessage] at hev
      subst hev
      simp at hev2
  | otherMsg =>
      intro ev hev bid bst al hsp c hev2
      simp [handleMessage] at hev
      subst hev
      simp at hev2
  | binary data now fdt hsp0 rec lat =>
      intro ev hev bid bst al hsp c hev2
      subst hev2
      unfold handleMessage at hev
      dsimp only at hev
      split at hev
      · simp at hev
      · split at hev
        · split at hev
          · simp only [List.mem_append, List.mem_cons, List.mem_singleton,
              List.not_mem_nil, or_false, Event.invokedPipeline.injEq,
              reduceCtorEq, false_or] at hev
            rw [hev.2.1]
            rfl
          · simp only [List.append_nil, List.mem_cons, List.mem_singleton,
              List.not_mem_nil, or_false, Event.invokedPipeline.injEq,
              reduceCtorEq, false_or] at hev
            rw [hev.2.1]
            rfl
        · simp at hev

/-- Across any whole trace, every pipeline invocation carries
`buffer_start_time = none`. -/
theorem runLoop_invoked_none (msgs : List InMessage) :
    ∀ (s0 : TranscriptionSession), ∀ ev ∈ (runLoop s0 msgs).2,
      ∀ bid bst al hsp c, ev = .invokedPipeline bid bst al hsp c →
        bst = none := by
  induction msgs with
  | nil =>
      intro s0 ev hev
      simp [runLoop] at hev
  | cons m rest ih =>
      intro s0 ev hev
      rw [runLoop_cons] at hev
      rw [List.mem_append] at hev
      rcases hev with h | h
      · exact handleMessage_invoked_none s0 m ev h
      · exact ih (handleMessage s0 m).1 ev h

/-- C2 counterexample: in a concrete run, the buffer that is flushed has
`buffer_start_time = some 100` just before the flush, yet the pipeline is
invoked with `buffer_start_time = none` — not the start time of the flushed
buffer (the endpoint reads it only after `flush()` cleared it, and `flush`
itself returns only the `(bytes, buffer_id)` pair). -/
theorem flush_start_time_counterexample :
    ((TranscriptionSession.init dtA).add_audio_chunk bigChunk 100).buffer_start_time
      = some 100 ∧
    (((TranscriptionSession.init dtA).add_audio_chunk bigChunk 100).flush dtB).1
      = (bigChunk, generate_buffer_id dtA 1) ∧
    (runLoop (TranscriptionSession.init dtA)
      [.binary bigChunk 100 dtB false (.success "hi") 7]).2[1]? =
      some (.invokedPipeline (generate_buffer_id dtA 1) none 1920000 false 0) ∧
    (none : Option ℚ) ≠ some 100 := by
  refine ⟨rfl, ?_, ?_, by simp⟩
  · simp [TranscriptionSession.init, TranscriptionSession.add_audio_chunk,
      TranscriptionSession.flush]
  · rw [trace_vadSkip]
    rfl

/-- C2 (amended): `flush()` returns only the pair
`(flushed bytes, flushed buffer_id)` — no start time — and then clears
the buffer, clears `buffer_start_time`, resets the silence counter,
increments the counter and regenerates `buffer_id`; consequently the
`buffer_start_time` the session runtime reads after the flush and passes to
the first phase is always `none`, not the flushed buffer's start time. -/
theorem flush_spec (s : TranscriptionSession) (now : DateTime) :
    (s.flush now).1 = (s.buffer, s.buffer_id) ∧
    (s.flush now).2.buffer = [] ∧
    (s.flush now).2.buffer_start_time = none ∧
    (s.flush now).2.silence_duration = 0 ∧
    (s.flush now).2.buffer_counter = s.buffer_counter + 1 ∧
    (s.flush now).2.buffer_id = generate_buffer_id now (s.buffer_counter + 1) ∧
    (∀ (s0 : TranscriptionSession) (msgs : List InMessage) (ev : Event),
      ev ∈ (runLoop s0 msgs).2 →
      ∀ bid bst al hsp c, ev = .invokedPipeline bid bst al hsp c →
        bst = none) := by
  exact ⟨rfl, rfl, rfl, rfl, rfl, rfl,
    fun s0 msgs ev hev => runLoop_invoked_none msgs s0 ev hev⟩

/-- Witness for C2 applied at a concrete trace: the single pipeline
invocation of the vad-skip run carries `buffer_start_time = none`. -/
theorem flush_spec_witness :
    ((TranscriptionSession.init dtA).flush dtB).1 =
      ([], generate_buffer_id dtA 1) ∧
    (none : Option ℚ) = none := by
  constructor
  · exact (flush_spec (TranscriptionSession.init dtA) dtB).1
  · have hmem : Event.invokedPipeline (generate_buffer_id dtA 1) none 1920000 false 0 ∈
        (runLoop (TranscriptionSession.init dtA)
          [.binary bigChunk 100 dtB false (.success "hi") 7]).2 := by
      rw [trace_vadSkip]
      simp
    exact (flush_spec (TranscriptionSession.init dtA) dtB).2.2.2.2.2.2
      (TranscriptionSession.init dtA) _ _ hmem
      (generate_buffer_id dtA 1) none 1920000 false 0 rfl

/-! ## C3: counting Whisper invocations -/

/-- Whisper calls recorded by an event (only pipeline invocations carry
calls). -/
def Event.whisperCallsOf : Event → Nat
  | .invokedPipeline _ _ _ _ c => c
  | _ => 0

/-- Whether an event is a pipeline invocation (one per flushed buffer). -/
def Event.isFlushInvoke : Event → Bool
  | .invokedPipeline _ _ _ _ _ => true
  | _ => false

/-- Whether an event is a pipeline invocation whose VAD verdict was
speech. -/
def Event.isSpeechInvoke : Event → Bool
  | .invokedPipeline _ _ _ h _ => h
  | _ => false

/-- Total number of Whisper calls over a trace. -/
def totalWhisperCalls (evs : List Event) : Nat :=
  (evs.map Event.whisperCallsOf).sum

/-- Number of flushed buffers in a trace. -/
def numFlushes (evs : List Event) : Nat :=
  evs.countP Event.isFlushInvoke

/-- Number of flushed buffers on which VAD detected speech. -/
def numSpeechFlushes (evs : List Event) : Nat :=
  evs.countP Event.isSpeechInvoke

/-- Per message, the Whisper calls recorded equal the number of
speech-carrying flushes, and speech flushes are at most all flushes. -/
theorem handleMessage_calls (s : TranscriptionSession) (m : InMessage) :
    totalWhisperCalls (handleMessage s m).2.1 =
      numSpeechFlushes (handleMessage s m).2.1 ∧
    numSpeechFlushes (handleMessage s m).2.1 ≤
      numFlushes (handleMessage s m).2.1 := by
  cases m with
  | text t =>
      simp [handleMessage, totalWhisperCalls, numSpeechFlushes, numFlushes,
        Event.whisperCallsOf, Event.isSpeechInvoke, Event.isFlushInvoke]
  | otherMsg =>
      simp [handleMessage, totalWhisperCalls, numSpeechFlushes, numFlushes,
        Event.whisperCallsOf, Event.isSpeechInvoke, Event.isFlushInvoke]
  | binary data now fdt hsp rec lat =>
      unfold handleMessage
      dsimp only
      split
      · simp [totalWhisperCalls, numSpeechFlushes, numFlushes,
          Event.whisperCallsOf, Event.isSpeechInvoke, Event.isFlushInvoke]
      · split
        · split
          · cases hsp <;>
              simp [totalWhisperCalls, numSpeechFlushes, numFlushes,
                Event.whisperCallsOf, Event.isSpeechInvoke,
                Event.isFlushInvoke, ppgwr_calls, List.countP_cons]
          · cases hsp <;>
              simp [totalWhisperCalls, numSpeechFlushes, numFlushes,
                Event.whisperCallsOf, Event.isSpeechInvoke,
                Event.isFlushInvoke, ppgwr_calls, List.countP_cons]
        · simp [totalWhisperCalls, numSpeechFlushes, numFlushes,
            Event.whisperCallsOf, Event.isSpeechInvoke, Event.isFlushInvoke]

/-- C3 (amended): the recognizer is invoked *at most* once per flushed
buffer — exactly once when VAD detects speech and zero times when it does
not (so N flushed buffers trigger at most N, not 2N, Whisper calls); the
final phase never invokes it again; and the whisper result handed to the
final phase is exactly the value `transcribe_audio` produced for the
first phase. -/
theorem whisper_once_per_flush :
    (∀ (ab : Nat) (bid : List Char) (hsp : Bool) (rec : RecognizerOutcome)
        (lat : ℚ),
      (processPartialAndGetWhisperResult ab bid hsp rec lat).2.2.2 =
        if hsp then 1 else 0) ∧
    (∀ (ab : Nat) (bid : List Char) (hsp : Bool) (rec : RecognizerOutcome)
        (lat : ℚ) (wr : TranscribeResult),
      (processPartialAndGetWhisperResult ab bid hsp rec lat).2.1 = some wr →
        wr = (transcribe_audio ab hsp rec).1) ∧
    (∀ (s0 : TranscriptionSession) (msgs : List InMessage),
      totalWhisperCalls (runLoop s0 msgs).2 =
        numSpeechFlushes (runLoop s0 msgs).2 ∧
      numSpeechFlushes (runLoop s0 msgs).2 ≤ numFlushes (runLoop s0 msgs).2) := by
  refine ⟨ppgwr_calls, fun ab bid hsp rec lat wr h => (ppgwr_shape ab bid hsp rec lat wr h).1, ?_⟩
  intro s0 msgs
  induction msgs generalizing s0 with
  | nil => simp [runLoop, totalWhisperCalls, numSpeechFlushes, numFlushes]
  | cons m rest ih =>
      rw [runLoop_cons]
      have hb := handleMessage_calls s0 m
      have hr := ih (handleMessage s0 m).1
      constructor
      · simp only [totalWhisperCalls, numSpeechFlushes, List.map_append,
          List.sum_append, List.countP_append] at hb hr ⊢
        omega
      · simp only [numSpeechFlushes, numFlushes, List.countP_append] at hb hr ⊢
        omega

/-- Witness for C3: the second conjunct applied at a concrete success
input. -/
theorem whisper_once_per_flush_witness :
    TranscribeResult.ok "" [] true =
      (transcribe_audio 1920000 false (.success "hi")).1 :=
  whisper_once_per_flush.2.1 1920000 (generate_buffer_id dtA 1) false
    (.success "hi") 7 (.ok "" [] true)
    (by simp [processPartialAndGetWhisperResult, transcribe_audio])

/-- C3 counterexample: a concrete flushed buffer on which VAD detects no
speech triggers *zero* recognizer calls, not one — the claimed
exactly-N-calls-for-N-buffers count fails. -/
theorem whisper_zero_calls_counterexample :
    totalWhisperCalls (runLoop (TranscriptionSession.init dtA)
      [.binary bigChunk 100 dtB false (.success "hi") 7]).2 = 0 ∧
    numFlushes (runLoop (TranscriptionSession.init dtA)
      [.binary bigChunk 100 dtB false (.success "hi") 7]).2 = 1 ∧
    (0 : Nat) ≠ 1 := by
  refine ⟨?_, ?_, by decide⟩
  · rw [trace_vadSkip]
    rfl
  · rw [trace_vadSkip]
    rfl

/-! ## C8: GPU out-of-memory handling -/

/-- Concrete trace for OOM recovery, shaped like scenario S6: the first
flushed buffer hits a CUDA out-of-memory error — its frame on the wire is
the GPU_OOM error dict and no final task is spawned — and the next flushed
buffer is processed normally, with its own partial frame and final-task
spawn. -/
theorem trace_oomThenOk :
    (runLoop (TranscriptionSession.init dtA)
      [.binary bigChunk 100 dtB true (.oom "CUDA out of memory") 7,
       .binary bigChunk 200 dtB true (.success "hello") 9]).2 =
    [.sent (.audioReceived 1920000),
     .invokedPipeline (generate_buffer_id dtA 1) none 1920000 true 1,
     .sent (.partialFrame (.errorDict
       { error_type := some "GPU_OOM",
         message := "GPU Out of Memory. Buffer will be skipped." })),
     .sent (.audioReceived 1920000),
     .invokedPipeline (generate_buffer_id dtB 2) none 1920000 true 1,
     .sent (.partialFrame (.ok
       { buffer_id := generate_buffer_id dtB 2,
         text := "hello",
         segments := [{ start := 0, end_ := 30, text := "hello",
                        speaker := none, corrected := none }],
         timestamp_range := (0, 30), latency_ms := 9 })),
     .spawnedFinal
       (.ok "hello" [{ start := 0, end_ := 30, text := "hello",
                       speaker := none, corrected := none }] false)
       (generate_buffer_id dtB 2) 1920000 none] := by
  have hw : "hello".toList.all Char.isWhitespace = false := by decide
  rw [runLoop_cons]
  rw [handleMessage_flush_block (TranscriptionSession.init dtA) bigChunk 100 dtB
    true (.oom "CUDA out of memory") 7 rfl
    (by rw [bigChunk_length]; decide)
    (by rw [bigChunk_length]; decide)
    (by rw [bigChunk_length]; decide)
    (by rw [bigChunk_length]; decide)
    (by rw [bigChunk_length]; decide)]
  rw [runLoop_cons]
  rw [handleMessage_flush_block _ bigChunk 200 dtB
    true (.success "hello") 9 rfl
    (by rw [bigChunk_length]; decide)
    (by rw [bigChunk_length]; decide)
    (by rw [bigChunk_length]; decide)
    (by rw [bigChunk_length]; decide)
    (by rw [bigChunk_length]; decide)]
  simp [runLoop, processPartialAndGetWhisperResult, transcribe_audio,
    handle_gpu_error, timestampRange, bigChunk_length,
    TranscriptionSession.init, hw]
  norm_num

/-- C8: on a CUDA out-of-memory error during recognition the GPU cache is
released and the pipeline returns the GPU_OOM error dict in place of the
first-phase result with a null whisper result, so no final task is spawned
for that buffer; the receive loop continues after every message, and in a
concrete two-buffer run the OOM buffer yields the error dict while the next
buffer is processed normally (partial frame plus final spawn) — OOM is a
per-buffer fault, not a session fault. -/
theorem gpu_oom_skip_and_continue :
    (∀ m, handle_gpu_error (.outOfMemory m) =
      ({ error_type := some "GPU_OOM",
         message := "GPU Out of Memory. Buffer will be skipped." }, true)) ∧
    (∀ (ab : Nat) (bid : List Char) (lat : ℚ) (m : String),
      processPartialAndGetWhisperResult ab bid true (.oom m) lat =
        (.errorDict
          { error_type := some "GPU_OOM"
            message := "GPU Out of Memory. Buffer will be skipped." },
         none, true, 1)) ∧
    (∀ (s : TranscriptionSession) (m : InMessage) (rest : List InMessage),
      runLoop s (m :: rest) =
        ((runLoop (handleMessage s m).1 rest).1,
         (handleMessage s m).2.1 ++ (runLoop (handleMessage s m).1 rest).2)) ∧
    (runLoop (TranscriptionSession.init dtA)
      [.binary bigChunk 100 dtB true (.oom "CUDA out of memory") 7,
       .binary bigChunk 200 dtB true (.success "hello") 9]).2 =
    [.sent (.audioReceived 1920000),
     .invokedPipeline (generate_buffer_id dtA 1) none 1920000 true 1,
     .sent (.partialFrame (.errorDict
       { error_type := some "GPU_OOM",
         message := "GPU Out of Memory. Buffer will be skipped." })),
     .sent (.audioReceived 1920000),
     .invokedPipeline (generate_buffer_id dtB 2) none 1920000 true 1,
     .sent (.partialFrame (.ok
       { buffer_id := generate_buffer_id dtB 2,
         text := "hello",
         segments := [{ start := 0, end_ := 30, text := "hello",
                        speaker := none, corrected := none }],
         timestamp_range := (0, 30), latency_ms := 9 })),
     .spawnedFinal
       (.ok "hello" [{ start := 0, end_ := 30, text := "hello",
                       speaker := none, corrected := none }] false)
       (generate_buffer_id dtB 2) 1920000 none] := by
  refine ⟨fun m => rfl, ?_, runLoop_cons, trace_oomThenOk⟩
  intro ab bid lat m
  simp [processPartialAndGetWhisperResult, transcribe_audio, handle_gpu_error]

/-! ## C7: a final task is spawned only after its own partial -/

/-- An event trace is spawn-safe when every final-task spawn carries a
successful whisper dict and is preceded (strictly earlier in the trace) by
the sending of the first-phase result frame with the same `buffer_id`. -/
def SpawnSafe (evs : List Event) : Prop :=
  ∀ (i : Nat) (wr : TranscribeResult) (bid : List Char) (al : Nat)
    (bst : Option ℚ),
    evs[i]? = some (.spawnedFinal wr bid al bst) →
    (∃ text segs v, wr = TranscribeResult.ok text segs v) ∧
    ∃ j, j < i ∧ ∃ p, evs[j]? = some (.sent (.partialFrame (.ok p))) ∧
      p.buffer_id = bid

/-- Spawn-safety is preserved by concatenation of spawn-safe traces. -/
theorem spawnSafe_append (xs ys : List Event) (hx : SpawnSafe xs)
    (hy : SpawnSafe ys) : SpawnSafe (xs ++ ys) := by
  intro i wr bid al bst h
  by_cases hi : i < xs.length
  · rw [List.getElem?_append_left hi] at h
    obtain ⟨hwr, j, hj, p, hp, hbid⟩ := hx i wr bid al bst h
    refine ⟨hwr, j, hj, p, ?_, hbid⟩
    rw [List.getElem?_append_left (lt_trans hj hi)]
    exact hp
  · push_neg at hi
    rw [List.getElem?_append_right hi] at h
    obtain ⟨hwr, j, hj, p, hp, hbid⟩ := hy (i - xs.length) wr bid al bst h
    refine ⟨hwr, xs.length + j, by omega, p, ?_, hbid⟩
    rw [List.getElem?_append_right (by omega)]
    have hjj : xs.length + j - xs.length = j := by omega
    rw [hjj]
    exact hp

/-- The events of one message are spawn-safe: a spawn only occurs in the
flush branch, only when the whisper result is non-null, and the frame at
the previous position is the first-phase result frame of the same
buffer. -/
theorem handleMessage_spawnSafe (s : TranscriptionSession) (m : InMessage) :
    SpawnSafe (handleMessage s m).2.1 := by
  cases m with
  | text t =>
      intro i wr bid al bst h
      rcases i with _ | i <;> simp [handleMessage] at h
  | otherMsg =>
      intro i wr bid al bst h
      rcases i with _ | i <;> simp [handleMessage] at h
  | binary data now fdt hsp rec lat =>
      unfold handleMessage
      dsimp only
      split
      · intro i wr bid al bst h
        rcases i with _ | i <;> simp at h
      · split
        · split
          · rename_i wr0 heq
            intro i wr bid al bst h
            rcases i with _ | _ | _ | _ | i
            · simp at h
            · simp at h
            · simp at h
            · simp only [List.cons_append, List.nil_append,
                List.getElem?_cons_succ, List.getElem?_cons_zero,
                Option.some.injEq, Event.spawnedFinal.injEq] at h
              obtain ⟨hwr0, hbid, hal, hbst⟩ := h
              obtain ⟨-, text, segs, v, hshape, hfst⟩ :=
                ppgwr_shape _ _ hsp rec lat wr0 heq
              refine ⟨⟨text, segs, v, by rw [← hwr0, hshape]⟩, 2, by omega,
                { buffer_id := ((s.add_audio_chunk data now).flush fdt).1.2,
                  text := text, segments := segs,
                  timestamp_range := timestampRange segs, latency_ms := lat },
                ?_, hbid⟩
              simp only [List.cons_append, List.nil_append,
                List.getElem?_cons_succ, List.getElem?_cons_zero,
                Option.some.injEq]
              rw [hfst]
            · simp at h
          · intro i wr bid al bst h
            rcases i with _ | _ | _ | i <;> simp at h
        · intro i wr bid al bst h
          rcases i with _ | i <;> simp at h

/-- Every whole trace of the receive loop is spawn-safe. -/
theorem runLoop_spawnSafe (msgs : List InMessage) :
    ∀ s0 : TranscriptionSession, SpawnSafe (runLoop s0 msgs).2 := by
  induction msgs with
  | nil =>
      intro s0 i wr bid al bst h
      simp [runLoop] at h
  | cons m rest ih =>
      intro s0
      rw [runLoop_cons]
      exact spawnSafe_append _ _ (handleMessage_spawnSafe s0 m)
        (ih (handleMessage s0 m).1)

/-- C7: on any one connection trace, a background final task is spawned
only with a non-null (successful) whisper result and only after the
first-phase frame with the same `buffer_id` has been sent; since a final
frame is sent only by a spawned task, no final can precede its own partial
and none is sent without it. -/
theorem final_spawn_after_partial (s0 : TranscriptionSession)
    (msgs : List InMessage) :
    ∀ (i : Nat) (wr : TranscribeResult) (bid : List Char) (al : Nat)
      (bst : Option ℚ),
      ((runLoop s0 msgs).2)[i]? = some (.spawnedFinal wr bid al bst) →
      (∃ text segs v, wr = TranscribeResult.ok text segs v) ∧
      ∃ j, j < i ∧ ∃ p, ((runLoop s0 msgs).2)[j]? =
        some (.sent (.partialFrame (.ok p))) ∧ p.buffer_id = bid :=
  runLoop_spawnSafe msgs s0

/-- Witness for C7: in the concrete vad-skip trace the spawn sits at index
3 and the theorem recovers its preceding partial frame. -/
theorem final_spawn_after_partial_witness :
    (∃ text segs v, TranscribeResult.ok "" [] true =
      TranscribeResult.ok text segs v) ∧
    ∃ j, j < 3 ∧ ∃ p, ((runLoop (TranscriptionSession.init dtA)
      [.binary bigChunk 100 dtB false (.success "hi") 7]).2)[j]? =
        some (.sent (.partialFrame (.ok p))) ∧
      p.buffer_id = generate_buffer_id dtA 1 :=
  final_spawn_after_partial (TranscriptionSession.init dtA)
    [.binary bigChunk 100 dtB false (.success "hi") 7]
    3 (.ok "" [] true) (generate_buffer_id dtA 1) 1920000 none
    (by rw [trace_vadSkip]; rfl)

/-! ## C6: buffer-id uniqueness and consecutive counters -/

/-- `Nat.digitChar` is injective on decimal digits. -/
theorem digitChar_inj10 : ∀ a < 10, ∀ b < 10,
    Nat.digitChar a = Nat.digitChar b → a = b := by decide

/-- Mapping `Nat.digitChar` over lists of decimal digits is injective. -/
theorem mapDigitChar_inj : ∀ (l1 l2 : List Nat), (∀ x ∈ l1, x < 10) →
    (∀ x ∈ l2, x < 10) → l1.map Nat.digitChar = l2.map Nat.digitChar →
    l1 = l2 := by
  intro l1
  induction l1 with
  | nil =>
      intro l2 _ _ h
      cases l2 with
      | nil => rfl
      | cons b t => simp at h
  | cons a t ih =>
      intro l2 h1 h2 h
      cases l2 with
      | nil => simp at h
      | cons b t2 =>
          simp only [List.map_cons, List.cons.injEq] at h
          have ha : a < 10 := h1 a (by simp)
          have hb : b < 10 := h2 b (by simp)
          have hab := digitChar_inj10 a ha b hb h.1
          subst hab
          have ht := ih t2 (fun x hx => h1 x (by simp [hx]))
            (fun x hx => h2 x (by simp [hx])) h.2
          rw [ht]

/-- The decimal rendering of a number is never the empty string. -/
theorem decChars_ne_nil (n : Nat) : decChars n ≠ [] := by
  unfold decChars
  split
  · simp
  · rename_i hn
    have hd : Nat.digits 10 n ≠ [] := Nat.digits_ne_nil_iff_ne_zero.mpr hn
    simp [hd]

/-- The decimal rendering of a non-zero number has no leading zero. -/
theorem decChars_head_ne_zero (n : Nat) (hn : n ≠ 0) :
    ∀ c t, decChars n = c :: t → c ≠ '0' := by
  intro c t h
  unfold decChars at h
  rw [if_neg hn] at h
  have hd : Nat.digits 10 n ≠ [] := Nat.digits_ne_nil_iff_ne_zero.mpr hn
  have hrev : (Nat.digits 10 n).reverse ≠ [] := by simp [hd]
  obtain ⟨d, t', hdt⟩ := List.exists_cons_of_ne_nil hrev
  rw [hdt] at h
  simp only [List.map_cons, List.cons.injEq] at h
  have hd0 : d ≠ 0 := by
    have hhead : ((Nat.digits 10 n).reverse).head? = some d := by
      rw [hdt]; rfl
    rw [List.head?_reverse] at hhead
    have hlast := Nat.getLast_digit_ne_zero 10 hn
    rw [List.getLast?_eq_getLast _ hd] at hhead
    simp only [Option.some.injEq] at hhead
    rw [← hhead]
    exact hlast
  have hdlt : d < 10 := by
    have hmem : d ∈ Nat.digits 10 n := by
      have : d ∈ (Nat.digits 10 n).reverse := by rw [hdt]; simp
      simpa using this
    exact Nat.digits_lt_base (by norm_num) hmem
  intro hc
  rw [hc] at h
  have : d = 0 := digitChar_inj10 d hdlt 0 (by norm_num) (by rw [h.1]; rfl)
  exact hd0 this

/-- Decimal rendering is injective. -/
theorem decChars_inj (a b : Nat) (h : decChars a = decChars b) : a = b := by
  by_cases ha : a = 0 <;> by_cases hb : b = 0
  · rw [ha, hb]
  · exfalso
    subst ha
    obtain ⟨c, t, hct⟩ := List.exists_cons_of_ne_nil (decChars_ne_nil b)
    rw [hct] at h
    have := decChars_head_ne_zero b hb c t hct
    have h0 : decChars 0 = ['0'] := rfl
    rw [h0] at h
    simp only [List.cons.injEq] at h
    exact this h.1.symm
  · exfalso
    subst hb
    obtain ⟨c, t, hct⟩ := List.exists_cons_of_ne_nil (decChars_ne_nil a)
    rw [hct] at h
    have := decChars_head_ne_zero a ha c t hct
    have h0 : decChars 0 = ['0'] := rfl
    rw [h0] at h
    simp only [List.cons.injEq] at h
    exact this h.1
  · unfold decChars at h
    rw [if_neg ha, if_neg hb] at h
    have hda := mapDigitChar_inj (Nat.digits 10 a).reverse (Nat.digits 10 b).reverse
      (fun x hx => Nat.digits_lt_base (by norm_num) (by simpa using hx))
      (fun x hx => Nat.digits_lt_base (by norm_num) (by simpa using hx)) h
    have hdd : Nat.digits 10 a = Nat.digits 10 b := by
      have := congrArg List.reverse hda
      simpa using this
    have := congrArg (Nat.ofDigits 10) hdd
    rwa [Nat.ofDigits_digits, Nat.ofDigits_digits] at this

/-- Dropping leading `'0'`s skips a zero-padded block. -/
theorem dropWhile_replicate_zero (k : Nat) (l : List Char) :
    (List.replicate k '0' ++ l).dropWhile (fun c => c == '0') =
      l.dropWhile (fun c => c == '0') := by
  induction k with
  | zero => simp
  | succ k ih =>
      rw [List.replicate_succ, List.cons_append, List.dropWhile_cons]
      simp [ih]

/-- A non-zero number's decimal rendering survives the leading-zero strip
unchanged. -/
theorem dropWhile_decChars (n : Nat) (hn : n ≠ 0) :
    (decChars n).dropWhile (fun c => c == '0') = decChars n := by
  obtain ⟨c, t, hct⟩ := List.exists_cons_of_ne_nil (decChars_ne_nil n)
  have hc := decChars_head_ne_zero n hn c t hct
  rw [hct, List.dropWhile_cons]
  simp [hc]

/-- Zero-padding to width three keeps the counter recoverable: `pad3` is
injective, so distinct counters render to distinct `NNN` blocks. -/
theorem pad3_inj (a b : Nat) (h : pad3 a = pad3 b) : a = b := by
  unfold pad3 at h
  have h2 := congrArg (List.dropWhile (fun c => c == '0')) h
  rw [dropWhile_replicate_zero, dropWhile_replicate_zero] at h2
  by_cases ha : a = 0 <;> by_cases hb : b = 0
  · rw [ha, hb]
  · exfalso
    rw [dropWhile_decChars b hb] at h2
    subst ha
    have h0 : (decChars 0).dropWhile (fun c => c == '0') = [] := rfl
    rw [h0] at h2
    exact decChars_ne_nil b h2.symm
  · exfalso
    rw [dropWhile_decChars a ha] at h2
    subst hb
    have h0 : (decChars 0).dropWhile (fun c => c == '0') = [] := rfl
    rw [h0] at h2
    exact decChars_ne_nil a h2
  · rw [dropWhile_decChars a ha, dropWhile_decChars b hb] at h2
    exact decChars_inj a b h2

/-- Two buffer ids agree only if their counters agree, whatever the
wall-clock date/time parts are: the prefix before the `NNN` block has fixed
width 21 (5 + 8 + 1 + 6 + 1), so the `NNN` blocks must coincide and `pad3`
is injective. -/
theorem generate_buffer_id_inj (d1 d2 : DateTime) (c1 c2 : Nat)
    (h : generate_buffer_id d1 c1 = generate_buffer_id d2 c2) : c1 = c2 := by
  unfold generate_buffer_id at h
  have hpad := List.append_inj_right h
    (by simp [List.length_append, d1.date_len, d1.time_len, d2.date_len,
      d2.time_len])
  exact pad3_inj c1 c2 hpad

/-- One operation the owning session task may perform on its
`TranscriptionSession` (§ the source's public mutators). -/
inductive SessionOp where
  | addChunk (chunk : List Nat) (now : ℚ)
  | silence (d : ℚ)
  | voice
  | flushOp (now : DateTime)

/-- Run a list of session operations, collecting the buffer ids returned by
the flushes in order. -/
def runOps : TranscriptionSession → List SessionOp → TranscriptionSession × List (List Char)
  | s, [] => (s, [])
  | s, .addChunk c t :: rest => runOps (s.add_audio_chunk c t) rest
  | s, .silence d :: rest => runOps (s.track_silence d) rest
  | s, .voice :: rest => runOps s.reset_silence rest
  | s, .flushOp d :: rest =>
      let r := runOps (s.flush d).2 rest
      (r.1, (s.flush d).1.2 :: r.2)

/-- The wall-clock date/times of the flush operations of a trace, in
order. -/
def flushTimes : List SessionOp → List DateTime
  | [] => []
  | .flushOp d :: rest => d :: flushTimes rest
  | _ :: rest => flushTimes rest

/-- `add_audio_chunk` changes neither the counter nor the buffer id. -/
theorem add_preserves_id (s : TranscriptionSession) (c : List Nat) (t : ℚ) :
    (s.add_audio_chunk c t).buffer_id = s.buffer_id ∧
    (s.add_audio_chunk c t).buffer_counter = s.buffer_counter := by
  unfold TranscriptionSession.add_audio_chunk
  dsimp only
  split <;> exact ⟨rfl, rfl⟩

/-- The generated ids of a run: its flushed ids followed by the live id are
rendered from consecutive counters, one datetime per generation point, and
the counter advances by exactly one per flush. -/
theorem runOps_ids (ops : List SessionOp) :
    ∀ (s : TranscriptionSession) (d0 : DateTime),
      s.buffer_id = generate_buffer_id d0 s.buffer_counter →
      (runOps s ops).1.buffer_counter =
        s.buffer_counter + (flushTimes ops).length ∧
      (runOps s ops).2 ++ [(runOps s ops).1.buffer_id] =
        List.zipWith generate_buffer_id (d0 :: flushTimes ops)
          (List.range' s.buffer_counter ((flushTimes ops).length + 1)) := by
  induction ops with
  | nil =>
      intro s d0 h
      refine ⟨by simp [runOps, flushTimes], ?_⟩
      simp [runOps, flushTimes, List.range'_succ, h]
  | cons op rest ih =>
      intro s d0 h
      cases op with
      | addChunk c t =>
          have hpre := add_preserves_id s c t
          have h2 : (s.add_audio_chunk c t).buffer_id =
              generate_buffer_id d0 (s.add_audio_chunk c t).buffer_counter := by
            rw [hpre.1, hpre.2, h]
          have h3 := ih (s.add_audio_chunk c t) d0 h2
          rw [hpre.2] at h3
          exact h3
      | silence d =>
          have h3 := ih (s.track_silence d) d0 h
          exact h3
      | voice =>
          have h3 := ih s.reset_silence d0 h
          exact h3
      | flushOp d =>
          have h2 : ((s.flush d).2).buffer_id =
              generate_buffer_id d ((s.flush d).2).buffer_counter := rfl
          have h3 := ih (s.flush d).2 d h2
          have hc : ((s.flush d).2).buffer_counter = s.buffer_counter + 1 := rfl
          rw [hc] at h3
          constructor
          · show (runOps (s.flush d).2 rest).1.buffer_counter =
              s.buffer_counter + (flushTimes (SessionOp.flushOp d :: rest)).length
            rw [h3.1]
            simp [flushTimes]
            omega
          · show ((s.flush d).1.2 :: (runOps (s.flush d).2 rest).2) ++
                [(runOps (s.flush d).2 rest).1.buffer_id] =
              List.zipWith generate_buffer_id
                (d0 :: flushTimes (SessionOp.flushOp d :: rest))
                (List.range' s.buffer_counter
                  ((flushTimes (SessionOp.flushOp d :: rest)).length + 1))
            have hft : flushTimes (SessionOp.flushOp d :: rest) =
                d :: flushTimes rest := rfl
            rw [hft]
            rw [show (d :: flushTimes rest).length + 1 =
              ((flushTimes rest).length + 1) + 1 from by simp]
            rw [List.range'_succ]
            rw [List.zipWith_cons_cons]
            rw [show (s.flush d).1.2 = s.buffer_id from rfl, h]
            rw [List.cons_append]
            rw [h3.2]

/-- Ids rendered from consecutive counters are pairwise distinct, whatever
their date/time parts. -/
theorem zipWith_ids_pairwise (dts : List DateTime) (c0 m : Nat) :
    (List.zipWith generate_buffer_id dts (List.range' c0 m)).Pairwise (· ≠ ·) := by
  rw [List.pairwise_iff_getElem]
  intro i j hi hj hij
  intro heq
  simp only [List.getElem_zipWith, List.getElem_range'] at heq
  have := generate_buffer_id_inj _ _ _ _ heq
  omega

/-- C6: starting from a fresh session, every flush advances the counter by
exactly one (final counter = 1 + number of flushes); the ids generated in a
run — the flushed ids followed by the live one — are rendered from the
consecutive counters 1, 2, 3, …, so the k-th flushed id carries the
zero-padded suffix of k+1 (`001` first); and all generated ids are pairwise
distinct, the counter block alone distinguishing them even when the
date/time parts repeat. -/
theorem buffer_ids_unique (d0 : DateTime) (ops : List SessionOp) :
    (runOps (TranscriptionSession.init d0) ops).1.buffer_counter =
      1 + (flushTimes ops).length ∧
    (runOps (TranscriptionSession.init d0) ops).2 ++
        [(runOps (TranscriptionSession.init d0) ops).1.buffer_id] =
      List.zipWith generate_buffer_id (d0 :: flushTimes ops)
        (List.range' 1 ((flushTimes ops).length + 1)) ∧
    (∀ k, k < (runOps (TranscriptionSession.init d0) ops).2.length →
      ∃ p, ((runOps (TranscriptionSession.init d0) ops).2)[k]? =
        some (p ++ pad3 (k + 1))) ∧
    ((runOps (TranscriptionSession.init d0) ops).2 ++
        [(runOps (TranscriptionSession.init d0) ops).1.buffer_id]).Pairwise
      (· ≠ ·) := by
  have h0 : (TranscriptionSession.init d0).buffer_id =
      generate_buffer_id d0 (TranscriptionSession.init d0).buffer_counter := rfl
  have hm := runOps_ids ops (TranscriptionSession.init d0) d0 h0
  have hc1 : (TranscriptionSession.init d0).buffer_counter = 1 := rfl
  rw [hc1] at hm
  refine ⟨hm.1, hm.2, ?_, ?_⟩
  · intro k hk
    have hlenc : ((runOps (TranscriptionSession.init d0) ops).2 ++
        [(runOps (TranscriptionSession.init d0) ops).1.buffer_id]).length =
        (flushTimes ops).length + 1 := by
      rw [hm.2]
      simp [List.length_zipWith]
    have hkn : k < (flushTimes ops).length := by
      simp only [List.length_append, List.length_singleton] at hlenc
      omega
    have he : ((runOps (TranscriptionSession.init d0) ops).2)[k]? =
        (List.zipWith generate_buffer_id (d0 :: flushTimes ops)
          (List.range' 1 ((flushTimes ops).length + 1)))[k]? := by
      rw [← hm.2, List.getElem?_append_left hk]
    have hkz : k < (List.zipWith generate_buffer_id (d0 :: flushTimes ops)
        (List.range' 1 ((flushTimes ops).length + 1))).length := by
      simp [List.length_zipWith]
      omega
    rw [List.getElem?_eq_getElem hkz] at he
    refine ⟨['b', 'u', 'f', 'f', '_'] ++ ((d0 :: flushTimes ops).get ⟨k, by simp; omega⟩).date
      ++ ['_'] ++ ((d0 :: flushTimes ops).get ⟨k, by simp; omega⟩).time ++ ['_'], ?_⟩
    rw [he]
    simp only [List.getElem_zipWith, List.getElem_range']
    rw [show 1 + 1 * k = k + 1 from by omega]
    simp only [generate_buffer_id, List.get_eq_getElem]
  · rw [hm.2]
    exact zipWith_ids_pairwise (d0 :: flushTimes ops) 1
      ((flushTimes ops).length + 1)

/-- Witness for C6: in a concrete two-flush run the first flushed id ends
in the `001` block. -/
theorem buffer_ids_unique_witness :
    ∃ p, ((runOps (TranscriptionSession.init dtA)
      [SessionOp.flushOp dtB, SessionOp.flushOp dtB]).2)[0]? =
        some (p ++ pad3 (0 + 1)) :=
  (buffer_ids_unique dtA [SessionOp.flushOp dtB, SessionOp.flushOp dtB]).2.2.1
    0 (by decide)
